import Mathlib

/-!
Verification of the CR360 text-to-SQL backend against its specification.

The Python sources (app/query/text_to_sql.py, app/llm/gemini_client.py,
app/llm/context_loader.py, app/database/client.py, app/api/routes/chat.py)
are shallowly embedded below.  Python strings are `List Char`; Python
exceptions become `Except`; the two calls into the external `sqlparse`
library are abstracted as an explicit library record (`SqlLib`) whose
methods may raise, mirroring how the code consumes them.
-/

/-- The character list of a string literal (Python `str`). -/
def chars (s : String) : List Char := s.data

/-- Python `needle in hay` / `hay.find(needle)`: index of the first
occurrence of `needle` as a contiguous substring of `hay`, if any. -/
def pyFind (needle hay : List Char) : Option Nat :=
  (List.range (hay.length + 1)).find? (fun i => needle.isPrefixOf (hay.drop i))

/-- Python `hay.find(needle, start)` (as an `Option` instead of `-1`). -/
def pyFindFrom (needle hay : List Char) (start : Nat) : Option Nat :=
  match pyFind needle (hay.drop start) with
  | some j => some (start + j)
  | none => none

/-- Python's substring test `needle in hay`. -/
def pyIn (needle hay : List Char) : Bool :=
  (pyFind needle hay).isSome

/-- Python `s.lower()` (ASCII, as used throughout the sources). -/
def pyLower (s : List Char) : List Char := s.map Char.toLower

/-- Python `s.upper()` (ASCII, as used throughout the sources). -/
def pyUpper (s : List Char) : List Char := s.map Char.toUpper

/-- Python `s.strip()`: remove whitespace from both ends. -/
def pyStrip (s : List Char) : List Char :=
  ((s.dropWhile Char.isWhitespace).reverse.dropWhile Char.isWhitespace).reverse

/-- Python `s.strip(set)`: remove characters of `set` from both ends. -/
def pyStripSet (set s : List Char) : List Char :=
  ((s.dropWhile (set.contains ·)).reverse.dropWhile (set.contains ·)).reverse

/-- Python `s.lstrip(set)`: remove characters of `set` from the left end. -/
def pyLstripSet (set s : List Char) : List Char :=
  s.dropWhile (set.contains ·)

/-- Python `s.split(sep)` for a single-character separator
(empty pieces are kept, as in Python). -/
def pySplitChar (sep : Char) : List Char → List (List Char)
  | [] => [[]]
  | c :: rest =>
    match pySplitChar sep rest with
    | [] => if c = sep then [[], []] else [[c]]
    | h :: t => if c = sep then [] :: h :: t else (c :: h) :: t

/-- Python `sep.join(pieces)`. -/
def pyJoin (sep : List Char) : List (List Char) → List Char
  | [] => []
  | [x] => x
  | x :: y :: rest => x ++ sep ++ pyJoin sep (y :: rest)

/-- Python slice `s[a:b]` with `0 ≤ a` and a nonnegative end index. -/
def pySlice (s : List Char) (a b : Nat) : List Char :=
  (s.take b).drop a

/-- Python slice `s[a:b]` where the end index may be negative
(e.g. `b = -1` excludes the final character). -/
def pySliceI (s : List Char) (a : Nat) (b : Int) : List Char :=
  let e : Int := if b < 0 then (s.length : Int) + b else b
  (s.take (if e < 0 then 0 else e.toNat)).drop a

/-- Decidable equality for `Except`, so concrete pipeline runs can be
checked by evaluation. -/
instance instDecEqExcept {ε α : Type} [DecidableEq ε] [DecidableEq α] :
    DecidableEq (Except ε α)
  | Except.error a, Except.error b =>
    if h : a = b then Decidable.isTrue (congrArg Except.error h)
    else Decidable.isFalse (fun he => h (Except.error.inj he))
  | Except.error _, Except.ok _ => Decidable.isFalse (fun he => Except.noConfusion he)
  | Except.ok _, Except.error _ => Decidable.isFalse (fun he => Except.noConfusion he)
  | Except.ok a, Except.ok b =>
    if h : a = b then Decidable.isTrue (congrArg Except.ok h)
    else Decidable.isFalse (fun he => h (Except.ok.inj he))

/-! ## Safety validator (`TextToSQLEngine._validate_sql`)

The two `sqlparse` calls are external-library calls; they are abstracted
as a record of functions that can either raise (`.error msg`, the
message being Python's `str(e)`) or return.  `parse` returns whether
`sqlparse.parse(sql)` produced a non-empty (truthy) statement tuple;
`format` returns the reformatted text of `sqlparse.format(sql, ...)`. -/

structure SqlLib where
  parse : List Char → Except (List Char) Bool
  format : List Char → Except (List Char) (List Char)

/-- The dict `{'is_valid': ..., 'errors': ...}` returned by the validator. -/
structure ValidationVerdict where
  is_valid : Bool
  errors : List (List Char)
deriving DecidableEq

/-- The blocklist scanned by `_validate_sql`, in source order. -/
def dangerous_keywords : List (List Char) :=
  [chars "DROP", chars "DELETE", chars "TRUNCATE", chars "ALTER", chars "CREATE",
   chars "INSERT", chars "UPDATE", chars "GRANT", chars "REVOKE"]

/-- Embedding of `TextToSQLEngine._validate_sql` (text_to_sql.py lines 176-235): parse
check, blocklist scan, SELECT-prefix check, reformat check; any exception
raised inside the `try` is caught and turned into a single
`Validation error: ...` entry. -/
def validate_sql (lib : SqlLib) (sql : List Char) : ValidationVerdict :=
  match lib.parse sql with
  | Except.error e => ⟨false, [chars "Validation error: " ++ e]⟩
  | Except.ok false => ⟨false, [chars "Failed to parse SQL"]⟩
  | Except.ok true =>
    let sql_upper := pyUpper sql
    let errors₁ := dangerous_keywords.filterMap (fun keyword =>
      if pyIn keyword sql_upper then some (chars "Dangerous keyword detected: " ++ keyword)
      else none)
    let errors₂ := errors₁ ++
      (if (chars "SELECT").isPrefixOf (pyStrip sql_upper) then []
       else [chars "Query must be a SELECT statement"])
    match lib.format sql with
    | Except.error e => ⟨false, [chars "Validation error: " ++ e]⟩
    | Except.ok formatted =>
      let errors₃ := errors₂ ++
        (if formatted.isEmpty then [chars "SQL formatting failed - likely syntax error"] else [])
      ⟨errors₃.isEmpty, errors₃⟩

/-- A trivial `sqlparse` stand-in used for concrete runs: parsing always
succeeds and reformatting returns the input. -/
def sqlLibOk : SqlLib := ⟨fun _ => Except.ok true, fun s => Except.ok s⟩

/-- A `sqlparse` stand-in whose `parse` raises. -/
def sqlLibRaise : SqlLib :=
  ⟨fun _ => Except.error (chars "boom"), fun s => Except.ok s⟩

/-- A `sqlparse` stand-in whose `format` raises. -/
def sqlLibFormatRaise : SqlLib :=
  ⟨fun _ => Except.ok true, fun _ => Except.error (chars "fmt boom")⟩

/-! ## Visualization heuristic (`TextToSQLEngine._suggest_visualization`) -/

/-- A result row: an ordered mapping column-name → cell value (cell
values are opaque, hence the type parameter). -/
abbrev Row (v : Type) : Type := List (List Char × v)

/-- The time-series keyword scan of `_suggest_visualization`. -/
def time_kw (sql_lower : List Char) : Bool :=
  [chars "date", chars "month", chars "year", chars "quarter"].any
    (fun time_word => pyIn time_word sql_lower)

/-- The comparison keyword scan of `_suggest_visualization`. -/
def comp_kw (sql_lower : List Char) : Bool :=
  [chars "region", chars "product", chars "segment"].any
    (fun comp_word => pyIn comp_word sql_lower)

/-- The aggregation keyword scan of `_suggest_visualization`. -/
def agg_kw (sql_lower : List Char) : Bool :=
  [chars "sum(", chars "avg(", chars "count("].any (fun agg => pyIn agg sql_lower)

/-- Embedding of `TextToSQLEngine._suggest_visualization` (text_to_sql.py lines 250-297).
The Python early returns are written as an if-chain; a fall-through (e.g. a
comparison keyword with more than 50 rows) continues to the later tests
exactly as in the source. -/
def suggest_visualization {v : Type} (sql : List Char) (results : List (Row v)) :
    List Char :=
  if results.isEmpty then chars "table"
  else
    let num_columns := (results.headD []).length
    let num_rows := results.length
    let sql_lower := pyLower sql
    if time_kw sql_lower = true ∧ 1 < num_rows then chars "line"
    else if comp_kw sql_lower = true ∧ num_rows ≤ 10 then chars "bar"
    else if comp_kw sql_lower = true ∧ num_rows ≤ 50 then chars "horizontal_bar"
    else if agg_kw sql_lower = true ∧ num_rows ≤ 10 then chars "bar"
    else if 50 < num_rows ∨ 5 < num_columns then chars "table"
    else chars "bar"

/-! ## LLM response parsing (`GeminiClient`) -/

/-- The `(sql, explanation, metrics_used)` triple returned by
`_parse_sql_response`. -/
structure SqlResponseFields where
  sql : List Char
  explanation : List Char
  metrics_used : List (List Char)
deriving DecidableEq

/-- Embedding of `GeminiClient._parse_sql_response` (gemini_client.py lines 307-346).
`find` results of `-1` are kept as `-1 : Int` so that the slice semantics
(including the truncation of the final character on an unmatched fence)
match Python exactly. -/
def parse_sql_response (response : List Char) : SqlResponseFields :=
  let sql :=
    if pyIn (chars "```sql") response then
      let sql_start := (pyFind (chars "```sql") response).getD 0 + 6
      let sql_end : Int :=
        match pyFindFrom (chars "```") response sql_start with
        | some j => (j : Int)
        | none => -1
      pyStrip (pySliceI response sql_start sql_end)
    else if pyIn (chars "```") response then
      let sql_start := (pyFind (chars "```") response).getD 0 + 3
      let sql_end : Int :=
        match pyFindFrom (chars "```") response sql_start with
        | some j => (j : Int)
        | none => -1
      pyStrip (pySliceI response sql_start sql_end)
    else []
  let explanation :=
    if pyIn (chars "Explanation:") response then
      let exp_start := (pyFind (chars "Explanation:") response).getD 0 + 12
      let exp_end :=
        match pyFindFrom (chars "Metrics used:") response exp_start with
        | some j => j
        | none => response.length
      pyStrip (pySlice response exp_start exp_end)
    else []
  let metrics_used :=
    if pyIn (chars "Metrics used:") response then
      let metrics_start := (pyFind (chars "Metrics used:") response).getD 0 + 13
      let metrics_text := pyStrip (response.drop metrics_start)
      ((pySplitChar ',' (metrics_text.map (fun c => if c = '\n' then ',' else c))).filter
          (fun m => ¬ (pyStrip m).isEmpty)).map
        (fun m => pyStrip (pyLstripSet (chars "-*") (pyStrip m)))
    else []
  ⟨sql, explanation, metrics_used⟩

/-- One element of the `Questions:` JSON array, abstracted to the shape
facts `_parse_ambiguity_response` inspects: which of the three required
keys are present, whether `options` is a JSON list, and its length. -/
structure QuestionElem where
  has_question_id : Bool
  has_question_text : Bool
  has_options : Bool
  options_is_list : Bool
  options_len : Nat
deriving DecidableEq

/-- Outcome of the regex extraction plus `json.loads` on the text after
the `Questions:` label (external `re`/`json` calls, abstracted): the
bracketed array parsed to a list of objects, no bracketed array was
found, or an exception was raised. -/
inductive QuestionsJson where
  | parsed (qs : List QuestionElem)
  | noMatch
  | raised
deriving DecidableEq

/-- The key-presence test `all(key in q for key in [...])` of the
question-validation loop. -/
def question_keys_ok (q : QuestionElem) : Bool :=
  q.has_question_id && q.has_question_text && q.has_options

/-- The `isinstance(q['options'], list) and len(q['options']) >= 2` test
of the question-validation loop. -/
def question_options_ok (q : QuestionElem) : Bool :=
  q.options_is_list && decide (2 ≤ q.options_len)

/-- The `for q in questions` validation loop: on the first failing
element the list is reset to `[]` and the loop breaks. -/
def questions_loop : List QuestionElem → Bool
  | [] => true
  | q :: rest =>
    if question_keys_ok q = false then false
    else if question_options_ok q = false then false
    else questions_loop rest

/-- The dict returned by `_parse_ambiguity_response`. -/
structure AmbiguityResult where
  is_ambiguous : Bool
  reasons : List (List Char)
  suggestions : List (List Char)
  questions : List QuestionElem
deriving DecidableEq

/-- The list comprehension `[x.strip('- ').strip() for x in t.split('\n')
if x.strip()]` used for both reasons and suggestions. -/
def section_lines (text : List Char) : List (List Char) :=
  ((pySplitChar '\n' text).filter (fun r => ¬ (pyStrip r).isEmpty)).map
    (fun r => pyStrip (pyStripSet (chars "- ") r))

/-- Embedding of `GeminiClient._parse_ambiguity_response` (gemini_client.py lines
425-506).  The regex/`json.loads` stage on the `Questions:` section is an
external-library call and is passed in as its outcome `qjson`; every
other step is computed from the response text. -/
def parse_ambiguity_response (response : List Char) (qjson : QuestionsJson) :
    AmbiguityResult :=
  let is_ambiguous := pyIn (chars "Ambiguous: Yes") response
  let reasons :=
    if pyIn (chars "Reasons:") response then
      let reasons_start := (pyFind (chars "Reasons:") response).getD 0 + 8
      let reasons_end :=
        match pyFindFrom (chars "Suggestions:") response reasons_start with
        | some j => j
        | none =>
          match pyFindFrom (chars "Questions:") response reasons_start with
          | some j => j
          | none => response.length
      section_lines (pyStrip (pySlice response reasons_start reasons_end))
    else []
  let suggestions :=
    if pyIn (chars "Suggestions:") response then
      let suggestions_start := (pyFind (chars "Suggestions:") response).getD 0 + 12
      let suggestions_end :=
        match pyFindFrom (chars "Questions:") response suggestions_start with
        | some j => j
        | none => response.length
      section_lines (pyStrip (pySlice response suggestions_start suggestions_end))
    else []
  let questions :=
    if pyIn (chars "Questions:") response then
      match qjson with
      | QuestionsJson.parsed qs => if questions_loop qs then qs else []
      | QuestionsJson.noMatch => []
      | QuestionsJson.raised => []
    else []
  ⟨is_ambiguous, reasons, suggestions, questions⟩

/-- One entry of the `clarifications` argument:
`{question_id, selected_option}`. -/
structure Clarification where
  question_id : List Char
  selected_option : List Char
deriving DecidableEq

/-- The per-clarification line
`f"- For '{c['question_id']}': User selected '{c['selected_option']}'"`. -/
def clarification_line (c : Clarification) : List Char :=
  chars "- For '" ++ c.question_id ++ chars "': User selected '" ++
    c.selected_option ++ chars "'"

/-- Embedding of `GeminiClient.augment_query_with_clarifications` (gemini_client.py
lines 508-553): pure string composition, identity on an empty list. -/
def augment_query_with_clarifications (original_query : List Char)
    (clarifications : List Clarification) : List Char :=
  if clarifications.isEmpty then original_query
  else
    let clarification_text := pyJoin (chars "\n") (clarifications.map clarification_line)
    original_query ++ chars "\n\n[Clarifications provided by user:\n" ++
      clarification_text ++ chars "\n]"

/-! ## Semantic model search (`ContextLoader.search_metrics_by_synonym`) -/

/-- The fields of a metric definition that the synonym search inspects
(`metric_def.get('synonyms', [])` and `metric_def.get('description', '')`). -/
structure MetricDef where
  synonyms : List (List Char)
  description : List Char
deriving DecidableEq

/-- A value of the `metrics` mapping: either a nested dict of
metric-name → definition, or some non-dict value (skipped by the
`isinstance(category_metrics, dict)` guard). -/
inductive CategoryVal where
  | dict (ms : List (List Char × MetricDef))
  | other
deriving DecidableEq

/-- One element of the returned `matches` list:
`{**metric_def, 'name': metric_name, 'category': category}`. -/
structure SearchHit where
  metric_def : MetricDef
  name : List Char
  category : List Char
deriving DecidableEq

/-- The inner loop of `search_metrics_by_synonym` over one category's
metrics: name check, then (via `continue`) synonym check, then (via
`continue`) description check. -/
def search_metrics_inner (query_lower category : List Char) :
    List (List Char × MetricDef) → List SearchHit
  | [] => []
  | (metric_name, metric_def) :: rest =>
    (if pyIn query_lower (pyLower metric_name) then [⟨metric_def, metric_name, category⟩]
     else if metric_def.synonyms.any (fun syn => pyIn query_lower (pyLower syn)) then
       [⟨metric_def, metric_name, category⟩]
     else if pyIn query_lower (pyLower metric_def.description) then
       [⟨metric_def, metric_name, category⟩]
     else []) ++ search_metrics_inner query_lower category rest

/-- Embedding of `ContextLoader.search_metrics_by_synonym` (context_loader.py lines
157-190), over the `metrics` mapping of the loaded semantic model. -/
def search_metrics_by_synonym (metrics : List (List Char × CategoryVal))
    (query : List Char) : List SearchHit :=
  match metrics with
  | [] => []
  | (category, cv) :: rest =>
    (match cv with
     | CategoryVal.dict ms => search_metrics_inner (pyLower query) category ms
     | CategoryVal.other => []) ++ search_metrics_by_synonym rest query

/-- Number of metric entries of the model (for the at-most-once bound). -/
def metric_entry_count (metrics : List (List Char × CategoryVal)) : Nat :=
  match metrics with
  | [] => 0
  | (_, CategoryVal.dict ms) :: rest => ms.length + metric_entry_count rest
  | (_, CategoryVal.other) :: rest => metric_entry_count rest

/-! ## Query pipeline (`TextToSQLEngine.process_query`)

The collaborators (`detect_ambiguity`, `generate_sql`, `execute_query`)
are suspending calls into other components; each is passed in as its
outcome for this invocation, an `Except` whose error is the exception
the call raised.  A returned `Bool` records whether the executor was
invoked. -/

/-- The exceptions that can cross `process_query`'s `try` block.
`databaseError` is a plain `DatabaseError` (utils/exceptions.py line 18)
that is not the subclass `SQLExecutionError` (line 42); `other` is any
exception outside the CR360 taxonomy. -/
inductive Exc where
  | ambiguousQuery (message : List Char) (options : List (List Char))
      (questions : List QuestionElem)
  | sqlGeneration (message : List Char)
  | sqlValidation (message : List Char)
  | sqlExecution (message : List Char)
  | databaseError (message : List Char)
  | other (message : List Char)
deriving DecidableEq

/-- Python `str(e)` for the modelled exceptions. -/
def exc_message : Exc → List Char
  | Exc.ambiguousQuery m _ _ => m
  | Exc.sqlGeneration m => m
  | Exc.sqlValidation m => m
  | Exc.sqlExecution m => m
  | Exc.databaseError m => m
  | Exc.other m => m

/-- Membership in the re-raise tuple
`except (AmbiguousQueryError, SQLGenerationError, SQLValidationError,
SQLExecutionError)` of text_to_sql.py line 131. -/
def exc_is_reraised : Exc → Bool
  | Exc.ambiguousQuery _ _ _ => true
  | Exc.sqlGeneration _ => true
  | Exc.sqlValidation _ => true
  | Exc.sqlExecution _ => true
  | Exc.databaseError _ => false
  | Exc.other _ => false

/-- The dict returned by `GeminiClient.generate_sql`
(`{'sql', 'explanation', 'metrics_used'}`). -/
structure GenSql where
  sql : List Char
  explanation : List Char
  metrics_used : List (List Char)
deriving DecidableEq

/-- The dict returned by a successful `process_query`
(text_to_sql.py lines 123-129). -/
structure QueryOutput (v : Type) where
  sql : List Char
  explanation : List Char
  results : List (Row v)
  metrics_used : List (List Char)
  visualization_hint : List Char
deriving DecidableEq

/-- Steps 4-6 of `process_query` (validation, execution,
post-processing), reached once the ambiguity gate has passed.
`sql_result` is the outcome of `_generate_sql` (step 2-3) and
`exec_result` the outcome of `_execute_sql` for this invocation. -/
def process_query_after_ambiguity {v : Type} (sql_result : Except Exc GenSql)
    (lib : SqlLib) (exec_result : Except Exc (List (Row v))) :
    Except Exc (QueryOutput v) × Bool :=
  match sql_result with
  | Except.error e => (Except.error e, false)
  | Except.ok sr =>
    let validation_result := validate_sql lib sr.sql
    if validation_result.is_valid = false then
      (Except.error (Exc.sqlValidation
        (chars "Generated SQL is invalid: " ++
          pyJoin (chars ", ") validation_result.errors)), false)
    else
      match exec_result with
      | Except.error e => (Except.error e, true)
      | Except.ok results =>
        (Except.ok ⟨sr.sql, sr.explanation, results, sr.metrics_used,
          suggest_visualization sr.sql results⟩, true)

/-- The body of `process_query`'s `try` block (text_to_sql.py lines
69-129): optional ambiguity gate, then steps 2-6. -/
def process_query_body {v : Type} (check_ambiguity : Bool)
    (ambiguity_result : Except Exc AmbiguityResult)
    (sql_result : Except Exc GenSql) (lib : SqlLib)
    (exec_result : Except Exc (List (Row v))) :
    Except Exc (QueryOutput v) × Bool :=
  if check_ambiguity then
    match ambiguity_result with
    | Except.error e => (Except.error e, false)
    | Except.ok ar =>
      if ar.is_ambiguous then
        (Except.error (Exc.ambiguousQuery
          (chars "Your query is ambiguous. Please clarify.")
          ar.suggestions ar.questions), false)
      else process_query_after_ambiguity sql_result lib exec_result
  else process_query_after_ambiguity sql_result lib exec_result

/-- Embedding of `TextToSQLEngine.process_query` (text_to_sql.py lines 41-136): the
`try` body, with expected errors re-raised unchanged (line 131) and any
other exception wrapped into `SQLGenerationError` (lines 134-136). -/
def process_query {v : Type} (check_ambiguity : Bool)
    (ambiguity_result : Except Exc AmbiguityResult)
    (sql_result : Except Exc GenSql) (lib : SqlLib)
    (exec_result : Except Exc (List (Row v))) :
    Except Exc (QueryOutput v) × Bool :=
  match process_query_body check_ambiguity ambiguity_result sql_result lib exec_result with
  | (Except.ok out, called) => (Except.ok out, called)
  | (Except.error e, called) =>
    if exc_is_reraised e then (Except.error e, called)
    else (Except.error (Exc.sqlGeneration
      (chars "Failed to process query: " ++ exc_message e)), called)

/-- The `QueryResult` schema instance built by the chat route
(api/routes/chat.py lines 131-138). -/
structure QueryResultSchema (v : Type) where
  sql : List Char
  explanation : List Char
  results : List (Row v)
  metrics_used : List (List Char)
  visualization_hint : List Char
  row_count : Nat
deriving DecidableEq

/-- The `QueryResult(...)` construction of the chat route, applied to a
successful `process_query` output: every field is copied and
`row_count=len(result['results'])` is added. -/
def build_query_result {v : Type} (result : QueryOutput v) : QueryResultSchema v :=
  ⟨result.sql, result.explanation, result.results, result.metrics_used,
    result.visualization_hint, result.results.length⟩

/-! ## Helper lemmas -/

/-- On every path of `_validate_sql`, `is_valid` agrees with the
emptiness of the accumulated error list. -/
theorem validate_sql_is_valid_eq (lib : SqlLib) (sql : List Char) :
    (validate_sql lib sql).is_valid = (validate_sql lib sql).errors.isEmpty := by
  unfold validate_sql
  cases hp : lib.parse sql with
  | error e => rfl
  | ok b =>
    cases b with
    | false => rfl
    | true =>
      cases hf : lib.format sql with
      | error e => rfl
      | ok f => rfl

/-- The question-validation loop succeeds exactly when every element
passes both structural checks. -/
theorem questions_loop_eq_all (qs : List QuestionElem) :
    questions_loop qs =
      qs.all (fun q => question_keys_ok q && question_options_ok q) := by
  induction qs with
  | nil => rfl
  | cons q rest ih =>
    unfold questions_loop
    cases hk : question_keys_ok q with
    | false => simp [List.all_cons, hk]
    | true =>
      cases ho : question_options_ok q with
      | false => simp [List.all_cons, hk, ho]
      | true => simp [List.all_cons, hk, ho, ih]

/-- Every piece passed to `pyJoin` is a substring of the joined result. -/
theorem pyJoin_infix (sep : List Char) (l : List (List Char)) (x : List Char)
    (hx : x ∈ l) : x <:+: pyJoin sep l := by
  induction l with
  | nil => cases hx
  | cons y rest ih =>
    cases rest with
    | nil =>
      rcases List.mem_cons.mp hx with rfl | hx
      · exact ⟨[], [], by simp [pyJoin]⟩
      · cases hx
    | cons z rest' =>
      rcases List.mem_cons.mp hx with rfl | hx
      · exact ⟨[], sep ++ pyJoin sep (z :: rest'), by simp [pyJoin]⟩
      · obtain ⟨s, t, hst⟩ := ih hx
        exact ⟨y ++ sep ++ s, t, by simp only [pyJoin]; rw [← hst]; simp⟩

/-- Python slice `s[a:-1]` drops the first `a` characters and the final
character. -/
theorem pySliceI_neg_one (s : List Char) (a : Nat) :
    pySliceI s a (-1) = (s.drop a).dropLast := by
  unfold pySliceI
  cases s with
  | nil => simp
  | cons c rest =>
    have hlen : (0 : Int) ≤ (c :: rest).length - 1 := by
      simp [List.length_cons]
    simp only [if_pos (by norm_num : (-1 : Int) < 0)]
    rw [if_neg (by omega), List.dropLast_eq_take (List.drop a (c :: rest)),
      List.length_drop]
    have he : ((((c :: rest).length : Int) + (-1)).toNat) = (c :: rest).length - 1 := by
      omega
    rw [he, List.drop_take ((c :: rest).length - 1) a (c :: rest)]
    congr 1
    omega

/-- When the ambiguity gate passes (or is skipped), the `try` body
reduces to steps 4-6. -/
theorem process_query_body_pass {v : Type} (check_ambiguity : Bool)
    (ambiguity_result : Except Exc AmbiguityResult)
    (sql_result : Except Exc GenSql) (lib : SqlLib)
    (exec_result : Except Exc (List (Row v)))
    (hamb : check_ambiguity = true →
      ∃ a, ambiguity_result = Except.ok a ∧ a.is_ambiguous = false) :
    process_query_body check_ambiguity ambiguity_result sql_result lib exec_result =
      process_query_after_ambiguity sql_result lib exec_result := by
  cases check_ambiguity with
  | false => rfl
  | true =>
    obtain ⟨a, ha, hna⟩ := hamb rfl
    unfold process_query_body
    rw [ha]
    simp [hna]

/-- A successful `try` body implies the executor ran and returned
exactly the rows carried in the output. -/
theorem process_query_body_ok_results {v : Type} (check_ambiguity : Bool)
    (ambiguity_result : Except Exc AmbiguityResult)
    (sql_result : Except Exc GenSql) (lib : SqlLib)
    (exec_result : Except Exc (List (Row v))) (out : QueryOutput v) (called : Bool)
    (h : process_query_body check_ambiguity ambiguity_result sql_result lib
      exec_result = (Except.ok out, called)) :
    ∃ rows, exec_result = Except.ok rows ∧ out.results = rows ∧ called = true := by
  have hafter :
      process_query_after_ambiguity sql_result lib exec_result = (Except.ok out, called) →
      ∃ rows, exec_result = Except.ok rows ∧ out.results = rows ∧ called = true := by
    intro h2
    cases sql_result with
    | error e => simp [process_query_after_ambiguity] at h2
    | ok sr =>
      dsimp only [process_query_after_ambiguity] at h2
      by_cases hv : (validate_sql lib sr.sql).is_valid = false
      · rw [if_pos hv] at h2
        simp at h2
      · rw [if_neg hv] at h2
        cases exec_result with
        | error e => simp at h2
        | ok results =>
          simp only [Prod.mk.injEq, Except.ok.injEq] at h2
          obtain ⟨rfl, rfl⟩ := h2
          exact ⟨results, rfl, rfl, rfl⟩
  cases check_ambiguity with
  | false => exact hafter h
  | true =>
    unfold process_query_body at h
    rw [if_pos rfl] at h
    cases ambiguity_result with
    | error e => simp at h
    | ok ar =>
      dsimp only [] at h
      by_cases hia : ar.is_ambiguous = true
      · rw [if_pos hia] at h
        simp at h
      · rw [if_neg hia] at h
        exact hafter h

/-! ## Claims -/

/-- C5: every SQL string that parses, reformats to non-empty text,
begins (after trimming, case-insensitively) with SELECT, and contains no
blocklisted keyword as a case-insensitive substring is accepted by
`_validate_sql` with an empty error list; and in general `is_valid` is
true iff zero errors were accumulated. -/
theorem c5_validator_accepts_clean_select :
    (∀ (lib : SqlLib) (sql : List Char),
      lib.parse sql = Except.ok true →
      (∃ f, lib.format sql = Except.ok f ∧ f.isEmpty = false) →
      (chars "SELECT").isPrefixOf (pyStrip (pyUpper sql)) = true →
      (∀ keyword ∈ dangerous_keywords, pyIn keyword (pyUpper sql) = false) →
      validate_sql lib sql = ⟨true, []⟩) ∧
    (∀ (lib : SqlLib) (sql : List Char),
      (validate_sql lib sql).is_valid = (validate_sql lib sql).errors.isEmpty) := by
  constructor
  · intro lib sql hp hfmt hsel hkw
    obtain ⟨f, hf, hfne⟩ := hfmt
    unfold validate_sql
    rw [hp]
    dsimp only []
    rw [hf]
    have h1 : dangerous_keywords.filterMap (fun keyword =>
        if pyIn keyword (pyUpper sql) then
          some (chars "Dangerous keyword detected: " ++ keyword)
        else none) = [] := by
      refine List.filterMap_eq_nil_iff.mpr ?_
      intro keyword hmem
      rw [hkw keyword hmem]
      simp
    rw [h1, if_pos hsel]
    dsimp only []
    rw [hfne]
    simp
  · exact validate_sql_is_valid_eq

/-- C5 witness: `SELECT 1` under the trivial `sqlparse` stand-in. -/
theorem c5_witness :
    validate_sql sqlLibOk (chars "SELECT 1") = ⟨true, []⟩ :=
  c5_validator_accepts_clean_select.1 sqlLibOk (chars "SELECT 1") rfl
    ⟨chars "SELECT 1", rfl, by decide⟩ (by decide) (by decide)

/-- C9: `_validate_sql` is total by construction, and when the
underlying library raises — at the parse step, or at the reformat step
after other errors may already have accumulated — it returns
`is_valid = false` with the single error `Validation error: ...` instead
of propagating the exception. -/
theorem c9_validator_exception_fallback :
    ∀ (lib : SqlLib) (sql e : List Char),
      (lib.parse sql = Except.error e →
        validate_sql lib sql = ⟨false, [chars "Validation error: " ++ e]⟩) ∧
      (lib.parse sql = Except.ok true → lib.format sql = Except.error e →
        validate_sql lib sql = ⟨false, [chars "Validation error: " ++ e]⟩) := by
  intro lib sql e
  constructor
  · intro hp
    unfold validate_sql
    rw [hp]
  · intro hp hf
    unfold validate_sql
    rw [hp]
    dsimp only []
    rw [hf]

/-- C9 witness: a raising `parse` and a raising `format` both collapse
to the single fallback error. -/
theorem c9_witness :
    sqlLibRaise.parse (chars "x") = Except.error (chars "boom") ∧
    validate_sql sqlLibRaise (chars "x") =
      ⟨false, [chars "Validation error: " ++ chars "boom"]⟩ ∧
    validate_sql sqlLibFormatRaise (chars "DROP x") =
      ⟨false, [chars "Validation error: " ++ chars "fmt boom"]⟩ :=
  ⟨rfl, (c9_validator_exception_fallback sqlLibRaise (chars "x") (chars "boom")).1 rfl,
    (c9_validator_exception_fallback sqlLibFormatRaise (chars "DROP x")
      (chars "fmt boom")).2 rfl rfl⟩

/-- C3: `_suggest_visualization` is a pure function of SQL text, row
count and column count, applying its rules in this exact precedence
(first match wins): empty → table; time keyword and >1 row → line;
comparison keyword → bar (≤10 rows) / horizontal_bar (≤50 rows);
aggregate call and ≤10 rows → bar; >50 rows or >5 columns → table;
else bar — together with the concrete cases named by the spec. -/
theorem c3_suggest_visualization_rules :
    (∀ (v : Type) (sql : List Char) (results : List (Row v)),
      (results = [] → suggest_visualization sql results = chars "table") ∧
      (results ≠ [] → time_kw (pyLower sql) = true → 1 < results.length →
        suggest_visualization sql results = chars "line") ∧
      (results ≠ [] → ¬(time_kw (pyLower sql) = true ∧ 1 < results.length) →
        comp_kw (pyLower sql) = true → results.length ≤ 10 →
        suggest_visualization sql results = chars "bar") ∧
      (results ≠ [] → ¬(time_kw (pyLower sql) = true ∧ 1 < results.length) →
        ¬(comp_kw (pyLower sql) = true ∧ results.length ≤ 10) →
        comp_kw (pyLower sql) = true → results.length ≤ 50 →
        suggest_visualization sql results = chars "horizontal_bar") ∧
      (results ≠ [] → ¬(time_kw (pyLower sql) = true ∧ 1 < results.length) →
        ¬(comp_kw (pyLower sql) = true ∧ results.length ≤ 10) →
        ¬(comp_kw (pyLower sql) = true ∧ results.length ≤ 50) →
        agg_kw (pyLower sql) = true → results.length ≤ 10 →
        suggest_visualization sql results = chars "bar") ∧
      (results ≠ [] → ¬(time_kw (pyLower sql) = true ∧ 1 < results.length) →
        ¬(comp_kw (pyLower sql) = true ∧ results.length ≤ 10) →
        ¬(comp_kw (pyLower sql) = true ∧ results.length ≤ 50) →
        ¬(agg_kw (pyLower sql) = true ∧ results.length ≤ 10) →
        (50 < results.length ∨ 5 < (results.headD []).length) →
        suggest_visualization sql results = chars "table") ∧
      (results ≠ [] → ¬(time_kw (pyLower sql) = true ∧ 1 < results.length) →
        ¬(comp_kw (pyLower sql) = true ∧ results.length ≤ 10) →
        ¬(comp_kw (pyLower sql) = true ∧ results.length ≤ 50) →
        ¬(agg_kw (pyLower sql) = true ∧ results.length ≤ 10) →
        ¬(50 < results.length ∨ 5 < (results.headD []).length) →
        suggest_visualization sql results = chars "bar")) ∧
    (suggest_visualization (chars "select anything") ([] : List (Row Unit)) =
        chars "table" ∧
      suggest_visualization (chars "select calendar_date, exposure from computed_metrics")
        ([[(chars "calendar_date", Unit.unit)], [(chars "calendar_date", Unit.unit)],
          [(chars "calendar_date", Unit.unit)]] : List (Row Unit)) = chars "line" ∧
      suggest_visualization (chars "select calendar_date, region_name from accounts")
        ([[(chars "calendar_date", Unit.unit)], [(chars "calendar_date", Unit.unit)]] :
          List (Row Unit)) = chars "line" ∧
      suggest_visualization (chars "select region_name, exposure from accounts")
        ([[(chars "region_name", Unit.unit)], [(chars "region_name", Unit.unit)],
          [(chars "region_name", Unit.unit)]] : List (Row Unit)) = chars "bar" ∧
      suggest_visualization (chars "select balance from accounts")
        ([[(chars "balance", Unit.unit)]] : List (Row Unit)) = chars "bar" ∧
      suggest_visualization (chars "select balance from accounts")
        (List.replicate 60 [(chars "balance", Unit.unit)] : List (Row Unit)) =
        chars "table") := by
  constructor
  · intro v sql results
    refine ⟨?_, ?_, ?_, ?_, ?_, ?_, ?_⟩
    · intro h
      subst h
      rfl
    · intro hne ht hr
      cases results with
      | nil => exact absurd rfl hne
      | cons r rs =>
        simp only [suggest_visualization, List.isEmpty_cons, Bool.false_eq_true, if_false]
        rw [if_pos ⟨ht, hr⟩]
    · intro hne hnt hc hle
      cases results with
      | nil => exact absurd rfl hne
      | cons r rs =>
        simp only [suggest_visualization, List.isEmpty_cons, Bool.false_eq_true, if_false]
        rw [if_neg hnt, if_pos ⟨hc, hle⟩]
    · intro hne hnt hnc hc hle
      cases results with
      | nil => exact absurd rfl hne
      | cons r rs =>
        simp only [suggest_visualization, List.isEmpty_cons, Bool.false_eq_true, if_false]
        rw [if_neg hnt, if_neg hnc, if_pos ⟨hc, hle⟩]
    · intro hne hnt hnc hnc' ha hle
      cases results with
      | nil => exact absurd rfl hne
      | cons r rs =>
        simp only [suggest_visualization, List.isEmpty_cons, Bool.false_eq_true, if_false]
        rw [if_neg hnt, if_neg hnc, if_neg hnc', if_pos ⟨ha, hle⟩]
    · intro hne hnt hnc hnc' hna hor
      cases results with
      | nil => exact absurd rfl hne
      | cons r rs =>
        simp only [suggest_visualization, List.isEmpty_cons, Bool.false_eq_true, if_false]
        rw [if_neg hnt, if_neg hnc, if_neg hnc', if_neg hna, if_pos hor]
    · intro hne hnt hnc hnc' hna hnor
      cases results with
      | nil => exact absurd rfl hne
      | cons r rs =>
        simp only [suggest_visualization, List.isEmpty_cons, Bool.false_eq_true, if_false]
        rw [if_neg hnt, if_neg hnc, if_neg hnc', if_neg hna, if_neg hnor]
  · refine ⟨by decide, by decide, by decide, by decide, by decide, by decide⟩

/-- C3 witness: rule (b) applied to SQL containing both a date keyword
and `region` with two rows — classified `line`, not `bar`. -/
theorem c3_witness :
    ([[(chars "calendar_date", Unit.unit)], [(chars "region_name", Unit.unit)]] :
        List (Row Unit)) ≠ [] ∧
    time_kw (pyLower (chars "select calendar_date, region_name from accounts")) = true ∧
    comp_kw (pyLower (chars "select calendar_date, region_name from accounts")) = true ∧
    suggest_visualization (chars "select calendar_date, region_name from accounts")
      ([[(chars "calendar_date", Unit.unit)], [(chars "region_name", Unit.unit)]] :
        List (Row Unit)) = chars "line" :=
  ⟨by decide, by decide, by decide,
    (c3_suggest_visualization_rules.1 Unit
        (chars "select calendar_date, region_name from accounts")
        [[(chars "calendar_date", Unit.unit)], [(chars "region_name", Unit.unit)]]).2.1
      (by decide) (by decide) (by decide)⟩

/-- C4: `_parse_ambiguity_response` never raises (it is total);
`is_ambiguous` holds iff the literal `Ambiguous: Yes` occurs; when the
bracketed array parses but any element fails the structural checks the
entire questions list is discarded; a fully well-formed array (with a
`Questions:` section present) is returned whole; and a parse exception
yields an empty list. -/
theorem c4_parse_ambiguity_fail_soft :
    ∀ (response : List Char) (qjson : QuestionsJson),
      ((parse_ambiguity_response response qjson).is_ambiguous =
        pyIn (chars "Ambiguous: Yes") response) ∧
      (qjson = QuestionsJson.raised →
        (parse_ambiguity_response response qjson).questions = []) ∧
      (∀ qs q, qjson = QuestionsJson.parsed qs → q ∈ qs →
        (question_keys_ok q && question_options_ok q) = false →
        (parse_ambiguity_response response qjson).questions = []) ∧
      (∀ qs, qjson = QuestionsJson.parsed qs →
        (∀ q ∈ qs, (question_keys_ok q && question_options_ok q) = true) →
        pyIn (chars "Questions:") response = true →
        (parse_ambiguity_response response qjson).questions = qs) := by
  intro response qjson
  refine ⟨rfl, ?_, ?_, ?_⟩
  · intro hq
    subst hq
    unfold parse_ambiguity_response
    dsimp only []
    cases hin : pyIn (chars "Questions:") response <;> simp [hin]
  · intro qs q hq hmem hbad
    subst hq
    unfold parse_ambiguity_response
    dsimp only []
    cases hin : pyIn (chars "Questions:") response with
    | false => simp [hin]
    | true =>
      have hloop : questions_loop qs = false := by
        rw [questions_loop_eq_all]
        cases hall : qs.all (fun q => question_keys_ok q && question_options_ok q) with
        | false => rfl
        | true =>
          have := List.all_eq_true.mp hall q hmem
          rw [hbad] at this
          cases this
      simp [hin, hloop]
  · intro qs hq hall hin
    subst hq
    unfold parse_ambiguity_response
    dsimp only []
    have hloop : questions_loop qs = true := by
      rw [questions_loop_eq_all]
      exact List.all_eq_true.mpr hall
    simp [hin, hloop]

/-- C4 witness: a response carrying `Ambiguous: Yes` and a `Questions:`
section whose array parsed to two well-formed questions yields
`is_ambiguous = true` and exactly those two questions; the same response
with a parse exception yields no questions. -/
theorem c4_witness :
    (parse_ambiguity_response
        (chars "Ambiguous: Yes\n\nQuestions:\n[...]")
        (QuestionsJson.parsed
          [⟨true, true, true, true, 2⟩, ⟨true, true, true, true, 4⟩])).is_ambiguous =
      true ∧
    (parse_ambiguity_response
        (chars "Ambiguous: Yes\n\nQuestions:\n[...]")
        (QuestionsJson.parsed
          [⟨true, true, true, true, 2⟩, ⟨true, true, true, true, 4⟩])).questions =
      [⟨true, true, true, true, 2⟩, ⟨true, true, true, true, 4⟩] ∧
    (parse_ambiguity_response (chars "Ambiguous: Yes\n\nQuestions:\n[...]")
        QuestionsJson.raised).questions = [] :=
  ⟨(c4_parse_ambiguity_fail_soft (chars "Ambiguous: Yes\n\nQuestions:\n[...]")
      (QuestionsJson.parsed
        [⟨true, true, true, true, 2⟩, ⟨true, true, true, true, 4⟩])).1.trans
    (by decide),
  (c4_parse_ambiguity_fail_soft (chars "Ambiguous: Yes\n\nQuestions:\n[...]")
      (QuestionsJson.parsed
        [⟨true, true, true, true, 2⟩, ⟨true, true, true, true, 4⟩])).2.2.2
    [⟨true, true, true, true, 2⟩, ⟨true, true, true, true, 4⟩] rfl (by decide) (by decide),
  (c4_parse_ambiguity_fail_soft (chars "Ambiguous: Yes\n\nQuestions:\n[...]")
      QuestionsJson.raised).2.1 rfl⟩

/-- Each metric entry contributes at most one hit to the inner scan. -/
theorem search_metrics_inner_length (ql cat : List Char)
    (ms : List (List Char × MetricDef)) :
    (search_metrics_inner ql cat ms).length ≤ ms.length := by
  induction ms with
  | nil => simp [search_metrics_inner]
  | cons p rest ih =>
    obtain ⟨metric_name, md⟩ := p
    simp only [search_metrics_inner, List.length_append, List.length_cons]
    have hhead : (if pyIn ql (pyLower metric_name) then
        [(⟨md, metric_name, cat⟩ : SearchHit)]
      else if md.synonyms.any (fun syn => pyIn ql (pyLower syn)) then
        [⟨md, metric_name, cat⟩]
      else if pyIn ql (pyLower md.description) then [⟨md, metric_name, cat⟩]
      else []).length ≤ 1 := by
      split_ifs <;> simp
    omega

/-- C6 counterexample: a metric whose name and description both contain
the search term appears once in the result, not once per matching
rule. -/
theorem c6_counterexample_single_hit :
    pyIn (pyLower (chars "exposure")) (pyLower (chars "total_exposure")) = true ∧
    pyIn (pyLower (chars "exposure"))
      (pyLower (chars "total exposure across portfolio")) = true ∧
    search_metrics_by_synonym
      [(chars "portfolio", CategoryVal.dict
        [(chars "total_exposure",
          ⟨[], chars "total exposure across portfolio"⟩)])]
      (chars "exposure") =
      [⟨⟨[], chars "total exposure across portfolio"⟩,
        chars "total_exposure", chars "portfolio"⟩] := by
  decide

/-- C6 amended: `search_metrics_by_synonym` matches name, synonyms and
description case-insensitively in that order, but the three rules are
short-circuited per metric (`continue`): a metric matching any rule —
even several — appears exactly once, one matching none is absent, and in
general the result never exceeds one hit per metric entry. -/
theorem c6_amended_one_hit_per_metric :
    (∀ (query category metric_name : List Char) (md : MetricDef),
      search_metrics_by_synonym [(category, CategoryVal.dict [(metric_name, md)])]
          query =
        if pyIn (pyLower query) (pyLower metric_name) = true ∨
            (md.synonyms.any (fun syn => pyIn (pyLower query) (pyLower syn))) = true ∨
            pyIn (pyLower query) (pyLower md.description) = true
        then [⟨md, metric_name, category⟩] else []) ∧
    (∀ (metrics : List (List Char × CategoryVal)) (query : List Char),
      (search_metrics_by_synonym metrics query).length ≤ metric_entry_count metrics) := by
  constructor
  · intro query category metric_name md
    simp only [search_metrics_by_synonym, search_metrics_inner, List.append_nil]
    by_cases h1 : pyIn (pyLower query) (pyLower metric_name) = true <;>
      by_cases h2 : (md.synonyms.any (fun syn => pyIn (pyLower query) (pyLower syn))) = true <;>
      by_cases h3 : pyIn (pyLower query) (pyLower md.description) = true <;>
      simp [h1, h2, h3]
  · intro metrics query
    induction metrics with
    | nil => simp [search_metrics_by_synonym, metric_entry_count]
    | cons p rest ih =>
      obtain ⟨cat, cv⟩ := p
      cases cv with
      | dict ms =>
        simp only [search_metrics_by_synonym, metric_entry_count, List.length_append]
        have := search_metrics_inner_length (pyLower query) cat ms
        omega
      | other =>
        simp only [search_metrics_by_synonym, metric_entry_count, List.length_append]
        simpa using ih

/-- C8: `augment_query_with_clarifications` is the identity on an empty
clarification list; on a non-empty list the original query is a prefix
of the result, the bracketed block opener occurs in it, and it contains
one `- For '{question_id}': User selected '{selected_option}'` line per
clarification — pure string composition. -/
theorem c8_augment_query_shape :
    ∀ (original_query : List Char) (clarifications : List Clarification),
      augment_query_with_clarifications original_query [] = original_query ∧
      (clarifications ≠ [] →
        original_query <+:
          augment_query_with_clarifications original_query clarifications ∧
        chars "[Clarifications provided by user:" <:+:
          augment_query_with_clarifications original_query clarifications ∧
        ∀ c ∈ clarifications,
          clarification_line c <:+:
            augment_query_with_clarifications original_query clarifications) := by
  intro original_query clarifications
  refine ⟨rfl, ?_⟩
  intro hne
  have hempty : clarifications.isEmpty = false := List.isEmpty_eq_false.mpr hne
  unfold augment_query_with_clarifications
  rw [hempty]
  dsimp only []
  set joined := pyJoin (chars "\n") (clarifications.map clarification_line) with hj
  refine ⟨?_, ?_, ?_⟩
  · rw [List.append_assoc, List.append_assoc]
    exact List.prefix_append original_query _
  · have hpiece : chars "\n\n[Clarifications provided by user:\n" =
        chars "\n\n" ++ chars "[Clarifications provided by user:" ++ chars "\n" := rfl
    refine ⟨original_query ++ chars "\n\n",
      chars "\n" ++ joined ++ chars "\n]", ?_⟩
    rw [hpiece]
    simp [List.append_assoc]
  · intro c hc
    obtain ⟨s, t, hst⟩ :=
      pyJoin_infix (chars "\n") (clarifications.map clarification_line)
        (clarification_line c) (List.mem_map_of_mem clarification_line hc)
    refine ⟨original_query ++ chars "\n\n[Clarifications provided by user:\n" ++ s,
      t ++ chars "\n]", ?_⟩
    rw [← hj] at hst
    rw [← hst]
    simp [List.append_assoc]

/-- C8 witness: two concrete clarifications. -/
theorem c8_witness :
    ([⟨chars "time_period", chars "Q4 2024"⟩,
      ⟨chars "charge_off_type", chars "Net charge-off"⟩] : List Clarification) ≠ [] ∧
    chars "What is the charge-off rate?" <+:
      augment_query_with_clarifications (chars "What is the charge-off rate?")
        [⟨chars "time_period", chars "Q4 2024"⟩,
         ⟨chars "charge_off_type", chars "Net charge-off"⟩] ∧
    clarification_line ⟨chars "time_period", chars "Q4 2024"⟩ <:+:
      augment_query_with_clarifications (chars "What is the charge-off rate?")
        [⟨chars "time_period", chars "Q4 2024"⟩,
         ⟨chars "charge_off_type", chars "Net charge-off"⟩] ∧
    clarification_line ⟨chars "charge_off_type", chars "Net charge-off"⟩ <:+:
      augment_query_with_clarifications (chars "What is the charge-off rate?")
        [⟨chars "time_period", chars "Q4 2024"⟩,
         ⟨chars "charge_off_type", chars "Net charge-off"⟩] := by
  have h := (c8_augment_query_shape (chars "What is the charge-off rate?")
    [⟨chars "time_period", chars "Q4 2024"⟩,
     ⟨chars "charge_off_type", chars "Net charge-off"⟩]).2 (by decide)
  exact ⟨by decide, h.1, h.2.2 _ (by decide), h.2.2 _ (by decide)⟩

/-- C10: when the response contains an opening ```` ```sql ```` fence
with no closing fence after it, `_parse_sql_response` does not raise and
returns the text after the marker truncated by exactly one final
character (the `-1` of the failed fence search acting as a slice end),
stripped of surrounding whitespace. -/
theorem c10_parse_sql_unmatched_fence :
    ∀ (response : List Char) (i : Nat),
      pyFind (chars "```sql") response = some i →
      pyFindFrom (chars "```") response (i + 6) = none →
      (parse_sql_response response).sql =
        pyStrip ((response.drop (i + 6)).dropLast) := by
  intro response i hfind hnone
  have hin : pyIn (chars "```sql") response = true := by
    unfold pyIn
    rw [hfind]
    rfl
  unfold parse_sql_response
  dsimp only []
  rw [hin]
  simp only [if_true, eq_self_iff_true, hfind, Option.getD_some, hnone]
  rw [pySliceI_neg_one]

/-- C10 witness: a response whose ```` ```sql ```` fence is never
closed. -/
theorem c10_witness :
    pyFind (chars "```sql") (chars "```sql\nSELECT 1\n") = some 0 ∧
    pyFindFrom (chars "```") (chars "```sql\nSELECT 1\n") 6 = none ∧
    (parse_sql_response (chars "```sql\nSELECT 1\n")).sql =
      pyStrip (((chars "```sql\nSELECT 1\n").drop 6).dropLast) ∧
    (parse_sql_response (chars "```sql\nSELECT 1\n")).sql = chars "SELECT 1" :=
  ⟨by decide, by decide,
    c10_parse_sql_unmatched_fence (chars "```sql\nSELECT 1\n") 0 (by decide) (by decide),
    (c10_parse_sql_unmatched_fence (chars "```sql\nSELECT 1\n") 0 (by decide)
      (by decide)).trans (by decide)⟩

/-- C2: whenever the validator's error list for the synthesized SQL is
non-empty, `process_query` raises `SQLValidationError` carrying the
message `Generated SQL is invalid: ` followed by the `', '`-joined
validation errors, and the executor is never called (the returned flag
is `false`). -/
theorem c2_validation_failure_blocks_executor :
    ∀ (v : Type) (check_ambiguity : Bool) (ambiguity_result : Except Exc AmbiguityResult)
      (sr : GenSql) (lib : SqlLib) (exec_result : Except Exc (List (Row v))),
      (check_ambiguity = true →
        ∃ a, ambiguity_result = Except.ok a ∧ a.is_ambiguous = false) →
      (validate_sql lib sr.sql).errors ≠ [] →
      process_query check_ambiguity ambiguity_result (Except.ok sr) lib exec_result =
        (Except.error (Exc.sqlValidation (chars "Generated SQL is invalid: " ++
          pyJoin (chars ", ") (validate_sql lib sr.sql).errors)), false) := by
  intro v check_ambiguity ambiguity_result sr lib exec_result hamb herr
  have hv : (validate_sql lib sr.sql).is_valid = false := by
    rw [validate_sql_is_valid_eq]
    exact List.isEmpty_eq_false.mpr herr
  unfold process_query
  rw [process_query_body_pass check_ambiguity ambiguity_result (Except.ok sr) lib
    exec_result hamb]
  unfold process_query_after_ambiguity
  dsimp only []
  rw [if_pos hv]
  rfl

/-- C2 witness: end-to-end scenario C — the synthesizer returns
`DROP TABLE accounts`; the pipeline raises SQLValidation and the
executor is never invoked. -/
theorem c2_witness :
    (validate_sql sqlLibOk (chars "DROP TABLE accounts")).errors ≠ [] ∧
    process_query false (Except.ok ⟨false, [], [], []⟩)
      (Except.ok ⟨chars "DROP TABLE accounts", [], []⟩) sqlLibOk
      (Except.ok ([] : List (Row Unit))) =
      (Except.error (Exc.sqlValidation (chars "Generated SQL is invalid: " ++
        pyJoin (chars ", ")
          (validate_sql sqlLibOk (chars "DROP TABLE accounts")).errors)), false) ∧
    pyJoin (chars ", ") (validate_sql sqlLibOk (chars "DROP TABLE accounts")).errors =
      chars "Dangerous keyword detected: DROP, Query must be a SELECT statement" :=
  ⟨by decide,
    c2_validation_failure_blocks_executor Unit false (Except.ok ⟨false, [], [], []⟩)
      ⟨chars "DROP TABLE accounts", [], []⟩ sqlLibOk (Except.ok [])
      (fun h => absurd h (by decide)) (by decide),
    by decide⟩

/-- C1 amended: an `SQLExecutionError` raised by the data-access layer
is re-raised unchanged by `process_query`; but a plain `DatabaseError`
(one that is not an `SQLExecutionError`) is not in the re-raise tuple
and is wrapped into `SQLGenerationError("Failed to process query: ...")`
by the outermost handler, not surfaced as a DatabaseError-kind
failure. -/
theorem c1_storage_error_propagation :
    ∀ (v : Type) (check_ambiguity : Bool) (ambiguity_result : Except Exc AmbiguityResult)
      (sr : GenSql) (lib : SqlLib) (m : List Char),
      (check_ambiguity = true →
        ∃ a, ambiguity_result = Except.ok a ∧ a.is_ambiguous = false) →
      (validate_sql lib sr.sql).errors = [] →
      process_query check_ambiguity ambiguity_result (Except.ok sr) lib
          (Except.error (Exc.sqlExecution m) : Except Exc (List (Row v))) =
        (Except.error (Exc.sqlExecution m), true) ∧
      process_query check_ambiguity ambiguity_result (Except.ok sr) lib
          (Except.error (Exc.databaseError m) : Except Exc (List (Row v))) =
        (Except.error (Exc.sqlGeneration
          (chars "Failed to process query: " ++ m)), true) := by
  intro v check_ambiguity ambiguity_result sr lib m hamb herr
  have hv : ¬ (validate_sql lib sr.sql).is_valid = false := by
    rw [validate_sql_is_valid_eq, herr]
    simp
  constructor
  · unfold process_query
    rw [process_query_body_pass check_ambiguity ambiguity_result (Except.ok sr) lib
      (Except.error (Exc.sqlExecution m)) hamb]
    unfold process_query_after_ambiguity
    dsimp only []
    rw [if_neg hv]
    rfl
  · unfold process_query
    rw [process_query_body_pass check_ambiguity ambiguity_result (Except.ok sr) lib
      (Except.error (Exc.databaseError m)) hamb]
    unfold process_query_after_ambiguity
    dsimp only []
    rw [if_neg hv]
    rfl

/-- C1 counterexample: with valid SQL and an executor that raises a
plain `DatabaseError`, the pipeline surfaces `SQLGenerationError`, not a
DatabaseError-kind failure — refuting the claim that such failures are
propagated unchanged. -/
theorem c1_counterexample_database_error_rewrapped :
    process_query false (Except.ok ⟨false, [], [], []⟩)
      (Except.ok ⟨chars "SELECT balance FROM accounts", [], []⟩) sqlLibOk
      (Except.error (Exc.databaseError (chars "connection refused")) :
        Except Exc (List (Row Unit))) =
      (Except.error (Exc.sqlGeneration
        (chars "Failed to process query: connection refused")), true) ∧
    (process_query false (Except.ok ⟨false, [], [], []⟩)
      (Except.ok ⟨chars "SELECT balance FROM accounts", [], []⟩) sqlLibOk
      (Except.error (Exc.databaseError (chars "connection refused")) :
        Except Exc (List (Row Unit)))).1 ≠
      Except.error (Exc.databaseError (chars "connection refused")) := by
  constructor
  · decide
  · decide

/-- C1 witness: an `SQLExecutionError` from the executor is re-raised
as-is. -/
theorem c1_witness :
    (validate_sql sqlLibOk (chars "SELECT balance FROM accounts")).errors = [] ∧
    process_query false (Except.ok ⟨false, [], [], []⟩)
      (Except.ok ⟨chars "SELECT balance FROM accounts", [], []⟩) sqlLibOk
      (Except.error (Exc.sqlExecution (chars "Table not found")) :
        Except Exc (List (Row Unit))) =
      (Except.error (Exc.sqlExecution (chars "Table not found")), true) :=
  ⟨by decide,
    (c1_storage_error_propagation Unit false (Except.ok ⟨false, [], [], []⟩)
      ⟨chars "SELECT balance FROM accounts", [], []⟩ sqlLibOk (chars "Table not found")
      (fun h => absurd h (by decide)) (by decide)).1⟩

/-- C7: every successful pipeline invocation yields a `QueryResult`
whose `row_count` equals the number of rows in `results`, alongside the
sql/explanation/results/metrics_used/visualization_hint fields; the
rows are exactly what the executor returned, so one executor row gives
`row_count = 1`. -/
theorem c7_query_result_row_count :
    ∀ (v : Type) (check_ambiguity : Bool) (ambiguity_result : Except Exc AmbiguityResult)
      (sql_result : Except Exc GenSql) (lib : SqlLib)
      (exec_result : Except Exc (List (Row v))) (out : QueryOutput v),
      (process_query check_ambiguity ambiguity_result sql_result lib exec_result).1 =
        Except.ok out →
      build_query_result out =
        ⟨out.sql, out.explanation, out.results, out.metrics_used,
          out.visualization_hint, out.results.length⟩ ∧
      ∀ rows, exec_result = Except.ok rows →
        (build_query_result out).results = rows ∧
        (build_query_result out).row_count = rows.length := by
  intro v check_ambiguity ambiguity_result sql_result lib exec_result out hok
  refine ⟨rfl, ?_⟩
  intro rows hex
  unfold process_query at hok
  rcases hb : process_query_body check_ambiguity ambiguity_result sql_result lib
    exec_result with ⟨r, called⟩
  rw [hb] at hok
  cases r with
  | ok o =>
    dsimp only [] at hok
    obtain rfl : o = out := by simpa using hok
    obtain ⟨rows', hex', hres, _⟩ := process_query_body_ok_results check_ambiguity
      ambiguity_result sql_result lib exec_result o called hb
    rw [hex] at hex'
    obtain rfl : rows = rows' := by simpa using hex'
    exact ⟨hres, by simp [build_query_result, hres]⟩
  | error e =>
    dsimp only [] at hok
    by_cases hr : exc_is_reraised e = true
    · rw [if_pos hr] at hok
      exact Except.noConfusion hok
    · rw [if_neg hr] at hok
      exact Except.noConfusion hok

/-- C7 witness: end-to-end scenario A — the executor returns the single
row `{total_exposure: 2800000000.0}` and the result carries
`row_count = 1`. -/
theorem c7_witness :
    (process_query true (Except.ok ⟨false, [], [], []⟩)
        (Except.ok ⟨chars "SELECT SUM(outstanding_balance) AS total_exposure FROM accounts",
          chars "Total exposure", [chars "total_exposure"]⟩) sqlLibOk
        (Except.ok [[(chars "total_exposure", chars "2800000000.0")]])).1 =
      Except.ok ⟨chars "SELECT SUM(outstanding_balance) AS total_exposure FROM accounts",
        chars "Total exposure", [[(chars "total_exposure", chars "2800000000.0")]],
        [chars "total_exposure"], chars "bar"⟩ ∧
    (build_query_result
        (⟨chars "SELECT SUM(outstanding_balance) AS total_exposure FROM accounts",
          chars "Total exposure", [[(chars "total_exposure", chars "2800000000.0")]],
          [chars "total_exposure"], chars "bar"⟩ : QueryOutput (List Char))).results =
      [[(chars "total_exposure", chars "2800000000.0")]] ∧
    (build_query_result
        (⟨chars "SELECT SUM(outstanding_balance) AS total_exposure FROM accounts",
          chars "Total exposure", [[(chars "total_exposure", chars "2800000000.0")]],
          [chars "total_exposure"], chars "bar"⟩ : QueryOutput (List Char))).row_count =
      1 :=
  ⟨by decide,
    ((c7_query_result_row_count (List Char) true (Except.ok ⟨false, [], [], []⟩)
        (Except.ok ⟨chars "SELECT SUM(outstanding_balance) AS total_exposure FROM accounts",
          chars "Total exposure", [chars "total_exposure"]⟩) sqlLibOk
        (Except.ok [[(chars "total_exposure", chars "2800000000.0")]])
        ⟨chars "SELECT SUM(outstanding_balance) AS total_exposure FROM accounts",
          chars "Total exposure", [[(chars "total_exposure", chars "2800000000.0")]],
          [chars "total_exposure"], chars "bar"⟩ (by decide)).2
      [[(chars "total_exposure", chars "2800000000.0")]] rfl).1,
    ((c7_query_result_row_count (List Char) true (Except.ok ⟨false, [], [], []⟩)
        (Except.ok ⟨chars "SELECT SUM(outstanding_balance) AS total_exposure FROM accounts",
          chars "Total exposure", [chars "total_exposure"]⟩) sqlLibOk
        (Except.ok [[(chars "total_exposure", chars "2800000000.0")]])
        ⟨chars "SELECT SUM(outstanding_balance) AS total_exposure FROM accounts",
          chars "Total exposure", [[(chars "total_exposure", chars "2800000000.0")]],
          [chars "total_exposure"], chars "bar"⟩ (by decide)).2
      [[(chars "total_exposure", chars "2800000000.0")]] rfl).2.trans (by decide)⟩
